import Mathlib

/-!
Shallow embedding of `src/scripts/bucket.py` from the repository
`leobezuti/cloud-app-cicd`.

The script provisions one S3 bucket for static website hosting: it creates
the bucket (with a region-conditional location constraint), disables the
public-access block, enables website hosting, attaches a public-read bucket
policy, and prints a success URL; a `ClientError` from any remote call is
caught, reported, and swallowed.

The embedding models the remote service as a sequence of responses: the
`i`-th issued remote call receives outcome `svc i`, which is either success,
a `ClientError` (the only exception type the script catches), or an
exception of any other type.  The construction of the boto3 client
(line 7, before the `try` block) is modelled by a separate `clientInit`
outcome.  A run is summarised by the list of remote calls issued, the lines
printed to stdout, and the exception (if any) propagating out of
`create_bucket`.
-/

namespace Bucket

/-- Payload of `put_public_access_block` (lines 20-28 of `bucket.py`). -/
structure PublicAccessBlockConfiguration where
  BlockPublicAcls : Bool
  IgnorePublicAcls : Bool
  BlockPublicPolicy : Bool
  RestrictPublicBuckets : Bool
  deriving DecidableEq

/-- Payload of `put_bucket_website` (lines 30-36 of `bucket.py`):
`ErrorDocument.Key` and `IndexDocument.Suffix`. -/
structure WebsiteConfiguration where
  ErrorDocumentKey : String
  IndexDocumentSuffix : String
  deriving DecidableEq

/-- One statement of the bucket policy document (lines 40-48 of `bucket.py`). -/
structure PolicyStatement where
  Sid : String
  Effect : String
  Principal : String
  Action : String
  Resource : String
  deriving DecidableEq

/-- The bucket policy document (lines 38-49 of `bucket.py`). -/
structure BucketPolicy where
  Version : String
  Statement : List PolicyStatement
  deriving DecidableEq

/-- A remote call issued against the storage service, with its payload.
`createBucket` carries the optional `CreateBucketConfiguration`
`LocationConstraint` value. -/
inductive RemoteCall where
  | createBucket (bucket : String) (locationConstraint : Option String)
  | putPublicAccessBlock (bucket : String) (config : PublicAccessBlockConfiguration)
  | putBucketWebsite (bucket : String) (config : WebsiteConfiguration)
  | putBucketPolicy (bucket : String) (policy : BucketPolicy)
  deriving DecidableEq

/-- Outcome of one remote call (or of constructing the client): success,
an exception of type `ClientError` (the only type the script catches), or
an exception of any other type. -/
inductive CallOutcome where
  | ok
  | clientError (msg : String)
  | otherError (msg : String)
  deriving DecidableEq

/-- `bucket_name = 'cloud-app-project-1'` (line 6 of `bucket.py`). -/
def bucket_name : String := "cloud-app-project-1"

/-- The bucket-creation call (lines 12-18 of `bucket.py`): for
`region != 'us-east-1'` it carries `CreateBucketConfiguration` with
`LocationConstraint = region`; otherwise the payload is omitted. -/
def createBucketCall (region : String) : RemoteCall :=
  if region ≠ "us-east-1" then
    RemoteCall.createBucket bucket_name (some region)
  else
    RemoteCall.createBucket bucket_name none

/-- The `PublicAccessBlockConfiguration` payload sent at lines 20-28:
all four flags `False`. -/
def publicAccessBlockConfiguration : PublicAccessBlockConfiguration :=
  { BlockPublicAcls := false
    IgnorePublicAcls := false
    BlockPublicPolicy := false
    RestrictPublicBuckets := false }

/-- The `WebsiteConfiguration` payload sent at lines 30-36. -/
def websiteConfiguration : WebsiteConfiguration :=
  { ErrorDocumentKey := "error.html"
    IndexDocumentSuffix := "index.html" }

/-- The `bucket_policy` dict built at lines 38-49 of `bucket.py`. -/
def bucket_policy : BucketPolicy :=
  { Version := "2012-10-17"
    Statement := [
      { Sid := "PublicReadGetObject"
        Effect := "Allow"
        Principal := "*"
        Action := "s3:GetObject"
        Resource := "arn:aws:s3:::" ++ bucket_name ++ "/*" } ] }

/-- The four remote calls the `try` block attempts, in source order
(lines 12-54 of `bucket.py`). -/
def plannedCalls (region : String) : List RemoteCall :=
  [createBucketCall region,
   RemoteCall.putPublicAccessBlock bucket_name publicAccessBlockConfiguration,
   RemoteCall.putBucketWebsite bucket_name websiteConfiguration,
   RemoteCall.putBucketPolicy bucket_name bucket_policy]

/-- How the `try` block ended: all calls succeeded, a `ClientError` was
raised (to be caught at line 59), or an exception of another type was
raised (to propagate). -/
inductive TryOutcome where
  | allOk
  | caught (msg : String)
  | raised (msg : String)
  deriving DecidableEq

/-- Result of running the `try` block: the remote calls actually issued
(in order, including a failing one) and how the block ended. -/
structure TryResult where
  calls : List RemoteCall
  outcome : TryOutcome
  deriving DecidableEq

/-- Issue the given calls in order, the `i`-th issued call receiving
outcome `svc i`; stop at the first call that raises. -/
def issueCalls (svc : Nat → CallOutcome) : List RemoteCall → Nat → TryResult
  | [], _ => ⟨[], TryOutcome.allOk⟩
  | c :: rest, i =>
    match svc i with
    | CallOutcome.ok =>
      let r := issueCalls svc rest (i + 1)
      ⟨c :: r.calls, r.outcome⟩
    | CallOutcome.clientError m => ⟨[c], TryOutcome.caught m⟩
    | CallOutcome.otherError m => ⟨[c], TryOutcome.raised m⟩

/-- Observable behaviour of one run of `create_bucket`: the remote calls
issued, the lines printed to stdout, and `some msg` when an exception
propagates out of the function (`none` when it returns normally). -/
structure RunResult where
  calls : List RemoteCall
  output : List String
  exn : Option String
  deriving DecidableEq

/-- `create_bucket(region)` (lines 5-60 of `bucket.py`).  `clientInit` is
the outcome of constructing the boto3 client at line 7, which happens
before the `try` block, so any exception there propagates; inside the
`try` block the four remote calls are issued in order, a `ClientError`
is caught and printed as `Erro: ...` (lines 59-60), and on success the
two success lines are printed (lines 56-57). -/
def create_bucket (clientInit : CallOutcome) (svc : Nat → CallOutcome)
    (region : String) : RunResult :=
  match clientInit with
  | CallOutcome.clientError m => ⟨[], [], some m⟩
  | CallOutcome.otherError m => ⟨[], [], some m⟩
  | CallOutcome.ok =>
    let pre := ["Criando o bucket " ++ bucket_name]
    let r := issueCalls svc (plannedCalls region) 0
    match r.outcome with
    | TryOutcome.allOk =>
      ⟨r.calls,
       pre ++ ["Bucket configurado com sucesso!",
               "URL: http://" ++ bucket_name ++ ".s3-website-" ++ region ++ ".amazonaws.com"],
       none⟩
    | TryOutcome.caught m => ⟨r.calls, pre ++ ["Erro: " ++ m], none⟩
    | TryOutcome.raised m => ⟨r.calls, pre, some m⟩

/-- The `if __name__ == '__main__'` entry point (lines 62-63): calls
`create_bucket()` with no argument, so the region is the default
`'sa-east-1'` from line 5. -/
def main_entry (clientInit : CallOutcome) (svc : Nat → CallOutcome) : RunResult :=
  create_bucket clientInit svc "sa-east-1"

/-- A service that accepts every call. -/
def svcOk : Nat → CallOutcome := fun _ => CallOutcome.ok

-- Helper lemmas shared by the claim theorems.

theorem create_bucket_calls (svc : Nat → CallOutcome) (region : String) :
    (create_bucket CallOutcome.ok svc region).calls =
      (issueCalls svc (plannedCalls region) 0).calls := by
  cases h : (issueCalls svc (plannedCalls region) 0).outcome <;>
    simp [create_bucket, h]

theorem issueCalls_calls_eq_take (svc : Nat → CallOutcome) :
    ∀ (l : List RemoteCall) (i : Nat),
      ∃ n, n ≤ l.length ∧ (issueCalls svc l i).calls = l.take n := by
  intro l
  induction l with
  | nil => exact fun i => ⟨0, Nat.le_refl 0, rfl⟩
  | cons c rest ih =>
    intro i
    cases h : svc i with
    | ok =>
      obtain ⟨n, hn, hc⟩ := ih (i + 1)
      exact ⟨n + 1, Nat.succ_le_succ hn, by simp [issueCalls, h, hc]⟩
    | clientError m =>
      exact ⟨1, Nat.succ_le_succ (Nat.zero_le _), by simp [issueCalls, h]⟩
    | otherError m =>
      exact ⟨1, Nat.succ_le_succ (Nat.zero_le _), by simp [issueCalls, h]⟩

theorem issueCalls_head (svc : Nat → CallOutcome) (c : RemoteCall)
    (rest : List RemoteCall) (i : Nat) :
    (issueCalls svc (c :: rest) i).calls.head? = some c := by
  cases h : svc i <;> simp [issueCalls, h]

theorem createBucketCall_shape (r : String) :
    ∃ cfg, createBucketCall r = RemoteCall.createBucket bucket_name cfg := by
  unfold createBucketCall
  split
  · exact ⟨some r, rfl⟩
  · exact ⟨none, rfl⟩

theorem mem_calls_mem_planned (clientInit : CallOutcome) (svc : Nat → CallOutcome)
    (region : String) (c : RemoteCall)
    (h : c ∈ (create_bucket clientInit svc region).calls) :
    c ∈ plannedCalls region := by
  cases clientInit with
  | ok =>
    rw [create_bucket_calls] at h
    obtain ⟨n, _, hc⟩ := issueCalls_calls_eq_take svc (plannedCalls region) 0
    rw [hc] at h
    exact List.take_subset n _ h
  | clientError m => simp [create_bucket] at h
  | otherError m => simp [create_bucket] at h

/-- C1: for every region `r` passed to `create_bucket`, if `r ≠ "us-east-1"`
the bucket-creation call (the first remote call of any run) carries a
`CreateBucketConfiguration` whose `LocationConstraint` equals `r`, and if
`r = "us-east-1"` the creation call omits the location-constraint payload. -/
theorem c1_create_bucket_location_constraint (r : String) (svc : Nat → CallOutcome) :
    (r ≠ "us-east-1" →
      (create_bucket CallOutcome.ok svc r).calls.head? =
        some (RemoteCall.createBucket bucket_name (some r))) ∧
    (r = "us-east-1" →
      (create_bucket CallOutcome.ok svc r).calls.head? =
        some (RemoteCall.createBucket bucket_name none)) := by
  constructor
  · intro h
    rw [create_bucket_calls, plannedCalls, issueCalls_head]
    simp [createBucketCall, h]
  · intro h
    rw [create_bucket_calls, plannedCalls, issueCalls_head]
    simp [createBucketCall, h]

/-- Witness for C1 at the concrete regions `"sa-east-1"` and `"us-east-1"`. -/
theorem c1_create_bucket_location_constraint_witness :
    ((create_bucket CallOutcome.ok svcOk "sa-east-1").calls.head? =
      some (RemoteCall.createBucket bucket_name (some "sa-east-1"))) ∧
    ((create_bucket CallOutcome.ok svcOk "us-east-1").calls.head? =
      some (RemoteCall.createBucket bucket_name none)) :=
  ⟨(c1_create_bucket_location_constraint "sa-east-1" svcOk).1 (by decide),
   (c1_create_bucket_location_constraint "us-east-1" svcOk).2 rfl⟩

/-- A service whose first call raises a `ClientError` (simulated
name-already-exists error). -/
def svcFailAt0 : Nat → CallOutcome :=
  fun i => if i = 0 then CallOutcome.clientError "BucketAlreadyOwnedByYou" else CallOutcome.ok

/-- C2: if the first failing remote call (the `k`-th, `k < 4`) raises a
`ClientError`, then no subsequent remote call is issued (exactly `k + 1`
calls are made), a diagnostic line containing the error text is printed,
and `create_bucket` returns normally without re-raising. -/
theorem c2_client_error_swallowed (region m : String) (svc : Nat → CallOutcome)
    (k : Nat) (hk : k < 4) (hok : ∀ j, j < k → svc j = CallOutcome.ok)
    (hfail : svc k = CallOutcome.clientError m) :
    (create_bucket CallOutcome.ok svc region).calls.length = k + 1 ∧
    ("Erro: " ++ m) ∈ (create_bucket CallOutcome.ok svc region).output ∧
    (create_bucket CallOutcome.ok svc region).exn = none := by
  interval_cases k
  · simp [create_bucket, plannedCalls, issueCalls, hfail]
  · have h0 := hok 0 (by omega)
    simp [create_bucket, plannedCalls, issueCalls, h0, hfail]
  · have h0 := hok 0 (by omega)
    have h1 := hok 1 (by omega)
    simp [create_bucket, plannedCalls, issueCalls, h0, h1, hfail]
  · have h0 := hok 0 (by omega)
    have h1 := hok 1 (by omega)
    have h2 := hok 2 (by omega)
    simp [create_bucket, plannedCalls, issueCalls, h0, h1, h2, hfail]

/-- Witness for C2: failure at step 1 (`k = 0`) with a simulated
name-already-exists error. -/
theorem c2_client_error_swallowed_witness :
    (create_bucket CallOutcome.ok svcFailAt0 "sa-east-1").calls.length = 0 + 1 ∧
    ("Erro: " ++ "BucketAlreadyOwnedByYou") ∈
      (create_bucket CallOutcome.ok svcFailAt0 "sa-east-1").output ∧
    (create_bucket CallOutcome.ok svcFailAt0 "sa-east-1").exn = none :=
  c2_client_error_swallowed "sa-east-1" "BucketAlreadyOwnedByYou" svcFailAt0 0
    (by decide) (fun j hj => absurd hj (Nat.not_lt_zero j)) rfl

/-- C3: on a run where the service accepts every call, `create_bucket`
issues exactly the four calls create-bucket, put-public-access-block,
put-bucket-website, put-bucket-policy in that order (`plannedCalls`); and
in every run, whenever the policy-attachment call is issued, the
public-access-block call was issued strictly before it. -/
theorem c3_call_order (region : String) (clientInit : CallOutcome)
    (svc : Nat → CallOutcome) :
    ((∀ i, svc i = CallOutcome.ok) → clientInit = CallOutcome.ok →
      (create_bucket clientInit svc region).calls = plannedCalls region) ∧
    (RemoteCall.putBucketPolicy bucket_name bucket_policy ∈
        (create_bucket clientInit svc region).calls →
      ∃ l₁ l₂, (create_bucket clientInit svc region).calls =
          l₁ ++ RemoteCall.putPublicAccessBlock bucket_name
            publicAccessBlockConfiguration :: l₂ ∧
        RemoteCall.putBucketPolicy bucket_name bucket_policy ∈ l₂) := by
  constructor
  · intro h hc
    subst hc
    simp [create_bucket, plannedCalls, issueCalls, h 0, h 1, h 2, h 3]
  · intro hmem
    cases clientInit with
    | clientError m => simp [create_bucket] at hmem
    | otherError m => simp [create_bucket] at hmem
    | ok =>
      rw [create_bucket_calls] at hmem ⊢
      obtain ⟨n, hn, hc⟩ := issueCalls_calls_eq_take svc (plannedCalls region) 0
      rw [hc] at hmem ⊢
      have hn4 : n ≤ 4 := by simpa [plannedCalls] using hn
      obtain ⟨cfg, hcfg⟩ := createBucketCall_shape region
      interval_cases n
      · simp at hmem
      · simp [plannedCalls, hcfg] at hmem
      · simp [plannedCalls, hcfg] at hmem
      · simp [plannedCalls, hcfg] at hmem
      · exact ⟨[createBucketCall region],
          [RemoteCall.putBucketWebsite bucket_name websiteConfiguration,
           RemoteCall.putBucketPolicy bucket_name bucket_policy],
          rfl, by simp⟩

/-- Witness for C3 on the happy path with region `"sa-east-1"`. -/
theorem c3_call_order_witness :
    (create_bucket CallOutcome.ok svcOk "sa-east-1").calls = plannedCalls "sa-east-1" ∧
    (∃ l₁ l₂, (create_bucket CallOutcome.ok svcOk "sa-east-1").calls =
        l₁ ++ RemoteCall.putPublicAccessBlock bucket_name
          publicAccessBlockConfiguration :: l₂ ∧
      RemoteCall.putBucketPolicy bucket_name bucket_policy ∈ l₂) :=
  ⟨(c3_call_order "sa-east-1" CallOutcome.ok svcOk).1 (fun _ => rfl) rfl,
   (c3_call_order "sa-east-1" CallOutcome.ok svcOk).2 (by decide)⟩

/-- C4: every policy-attachment call issued in any run carries a policy
document with a single statement whose `Resource` is
`arn:aws:s3:::cloud-app-project-1/*`, whose `Action` is `s3:GetObject`,
whose `Principal` is `*`, and whose `Effect` is `Allow`. -/
theorem c4_policy_document (region : String) (clientInit : CallOutcome)
    (svc : Nat → CallOutcome) (p : BucketPolicy)
    (h : RemoteCall.putBucketPolicy bucket_name p ∈
      (create_bucket clientInit svc region).calls) :
    ∃ s, p.Statement = [s] ∧
      s.Resource = "arn:aws:s3:::cloud-app-project-1/*" ∧
      s.Action = "s3:GetObject" ∧ s.Principal = "*" ∧ s.Effect = "Allow" := by
  have hp := mem_calls_mem_planned clientInit svc region _ h
  obtain ⟨cfg, hcfg⟩ := createBucketCall_shape region
  simp [plannedCalls, hcfg] at hp
  subst hp
  exact ⟨⟨"PublicReadGetObject", "Allow", "*", "s3:GetObject",
    "arn:aws:s3:::cloud-app-project-1/*"⟩, by decide, rfl, rfl, rfl, rfl⟩

/-- Witness for C4 on the happy path with region `"sa-east-1"`. -/
theorem c4_policy_document_witness :
    ∃ s, bucket_policy.Statement = [s] ∧
      s.Resource = "arn:aws:s3:::cloud-app-project-1/*" ∧
      s.Action = "s3:GetObject" ∧ s.Principal = "*" ∧ s.Effect = "Allow" :=
  c4_policy_document "sa-east-1" CallOutcome.ok svcOk bucket_policy (by decide)

/-- C5: every public-access-block call issued in any run carries the
payload with all four flags (`BlockPublicAcls`, `IgnorePublicAcls`,
`BlockPublicPolicy`, `RestrictPublicBuckets`) set to `false`. -/
theorem c5_public_access_block_permissive (region : String) (clientInit : CallOutcome)
    (svc : Nat → CallOutcome) (cfg : PublicAccessBlockConfiguration)
    (h : RemoteCall.putPublicAccessBlock bucket_name cfg ∈
      (create_bucket clientInit svc region).calls) :
    cfg.BlockPublicAcls = false ∧ cfg.IgnorePublicAcls = false ∧
    cfg.BlockPublicPolicy = false ∧ cfg.RestrictPublicBuckets = false := by
  have hp := mem_calls_mem_planned clientInit svc region _ h
  obtain ⟨c, hcfg⟩ := createBucketCall_shape region
  simp [plannedCalls, hcfg] at hp
  subst hp
  exact ⟨rfl, rfl, rfl, rfl⟩

/-- Witness for C5 on the happy path with region `"sa-east-1"`. -/
theorem c5_public_access_block_permissive_witness :
    publicAccessBlockConfiguration.BlockPublicAcls = false ∧
    publicAccessBlockConfiguration.IgnorePublicAcls = false ∧
    publicAccessBlockConfiguration.BlockPublicPolicy = false ∧
    publicAccessBlockConfiguration.RestrictPublicBuckets = false :=
  c5_public_access_block_permissive "sa-east-1" CallOutcome.ok svcOk
    publicAccessBlockConfiguration (by decide)

/-- C6: every website-configuration call issued in any run declares the
index document `index.html` and the error document `error.html`. -/
theorem c6_website_documents (region : String) (clientInit : CallOutcome)
    (svc : Nat → CallOutcome) (cfg : WebsiteConfiguration)
    (h : RemoteCall.putBucketWebsite bucket_name cfg ∈
      (create_bucket clientInit svc region).calls) :
    cfg.IndexDocumentSuffix = "index.html" ∧ cfg.ErrorDocumentKey = "error.html" := by
  have hp := mem_calls_mem_planned clientInit svc region _ h
  obtain ⟨c, hcfg⟩ := createBucketCall_shape region
  simp [plannedCalls, hcfg] at hp
  subst hp
  exact ⟨rfl, rfl⟩

/-- Witness for C6 on the happy path with region `"sa-east-1"`. -/
theorem c6_website_documents_witness :
    websiteConfiguration.IndexDocumentSuffix = "index.html" ∧
    websiteConfiguration.ErrorDocumentKey = "error.html" :=
  c6_website_documents "sa-east-1" CallOutcome.ok svcOk websiteConfiguration (by decide)

/-- C7: on every successful run the last printed line is the success URL
`http://<bucket>.s3-website-<region>.amazonaws.com` for the supplied
region; and the zero-argument entry point uses the default region
`sa-east-1`, printing
`http://cloud-app-project-1.s3-website-sa-east-1.amazonaws.com`. -/
theorem c7_success_url (region : String) (svc : Nat → CallOutcome)
    (h : ∀ i, svc i = CallOutcome.ok) :
    (create_bucket CallOutcome.ok svc region).output.getLast? =
      some ("URL: " ++ ("http://" ++ bucket_name ++ ".s3-website-" ++ region ++
        ".amazonaws.com")) ∧
    (main_entry CallOutcome.ok svc).output.getLast? =
      some "URL: http://cloud-app-project-1.s3-website-sa-east-1.amazonaws.com" := by
  constructor
  · simp only [create_bucket, plannedCalls, issueCalls, h 0, h 1, h 2, h 3]
    simp only [bucket_name]
    simp [String.append_assoc]
    have hlit : ("URL: http://cloud-app-project-1.s3-website-" : String) =
        "URL: " ++ "http://cloud-app-project-1.s3-website-" := by decide
    rw [hlit, String.append_assoc]
  · simp only [main_entry, create_bucket, plannedCalls, issueCalls, h 0, h 1, h 2, h 3]
    simp only [List.getLast?, List.cons_append, List.nil_append]
    exact congrArg some (by decide)

/-- Witness for C7 with an all-accepting service. -/
theorem c7_success_url_witness :
    (create_bucket CallOutcome.ok svcOk "sa-east-1").output.getLast? =
      some ("URL: " ++ ("http://" ++ bucket_name ++ ".s3-website-" ++ "sa-east-1" ++
        ".amazonaws.com")) ∧
    (main_entry CallOutcome.ok svcOk).output.getLast? =
      some "URL: http://cloud-app-project-1.s3-website-sa-east-1.amazonaws.com" :=
  c7_success_url "sa-east-1" svcOk (fun _ => rfl)

/-- A service that accepts the creation call and raises a `ClientError`
on the second call. -/
def svcFailAt1 : Nat → CallOutcome :=
  fun i => if i = 0 then CallOutcome.ok else CallOutcome.clientError "AccessDenied"

/-- C8: when the first failing call is a `ClientError` at step `k + 1`
for `k ∈ {1, 2, 3}` (i.e. after bucket creation), the creation call was
issued and the calls made are exactly the planned calls up to and
including the failing one — no compensating or cleanup call follows. -/
theorem c8_no_cleanup_after_failure (region m : String) (svc : Nat → CallOutcome)
    (k : Nat) (hk1 : 1 ≤ k) (hk : k < 4)
    (hok : ∀ j, j < k → svc j = CallOutcome.ok)
    (hfail : svc k = CallOutcome.clientError m) :
    createBucketCall region ∈ (create_bucket CallOutcome.ok svc region).calls ∧
    (create_bucket CallOutcome.ok svc region).calls =
      (plannedCalls region).take (k + 1) := by
  interval_cases k
  · have h0 := hok 0 (by omega)
    simp [create_bucket, plannedCalls, issueCalls, h0, hfail]
  · have h0 := hok 0 (by omega)
    have h1 := hok 1 (by omega)
    simp [create_bucket, plannedCalls, issueCalls, h0, h1, hfail]
  · have h0 := hok 0 (by omega)
    have h1 := hok 1 (by omega)
    have h2 := hok 2 (by omega)
    simp [create_bucket, plannedCalls, issueCalls, h0, h1, h2, hfail]

/-- Witness for C8: failure at step 2 (`k = 1`) with region `"sa-east-1"`. -/
theorem c8_no_cleanup_after_failure_witness :
    createBucketCall "sa-east-1" ∈
      (create_bucket CallOutcome.ok svcFailAt1 "sa-east-1").calls ∧
    (create_bucket CallOutcome.ok svcFailAt1 "sa-east-1").calls =
      (plannedCalls "sa-east-1").take (1 + 1) :=
  c8_no_cleanup_after_failure "sa-east-1" "AccessDenied" svcFailAt1 1
    (by decide) (by decide)
    (fun j hj => by interval_cases j; rfl) (by decide)

/-- A service whose first call raises an exception that is not a
`ClientError`. -/
def svcRaiseAt0 : Nat → CallOutcome :=
  fun _ => CallOutcome.otherError "EndpointConnectionError"

/-- C9: the handler catches only `ClientError`: an exception of any other
type raised by the first failing remote call propagates out of
`create_bucket`, and an exception raised while constructing the client
(before the `try` block) propagates even when it is a `ClientError`. -/
theorem c9_only_client_error_caught (region m : String) (svc : Nat → CallOutcome) :
    (∀ k, k < 4 → (∀ j, j < k → svc j = CallOutcome.ok) →
      svc k = CallOutcome.otherError m →
      (create_bucket CallOutcome.ok svc region).exn = some m) ∧
    (create_bucket (CallOutcome.clientError m) svc region).exn = some m ∧
    (create_bucket (CallOutcome.otherError m) svc region).exn = some m := by
  refine ⟨fun k hk hok hfail => ?_, rfl, rfl⟩
  interval_cases k
  · simp [create_bucket, plannedCalls, issueCalls, hfail]
  · have h0 := hok 0 (by omega)
    simp [create_bucket, plannedCalls, issueCalls, h0, hfail]
  · have h0 := hok 0 (by omega)
    have h1 := hok 1 (by omega)
    simp [create_bucket, plannedCalls, issueCalls, h0, h1, hfail]
  · have h0 := hok 0 (by omega)
    have h1 := hok 1 (by omega)
    have h2 := hok 2 (by omega)
    simp [create_bucket, plannedCalls, issueCalls, h0, h1, h2, hfail]

/-- Witness for C9: a non-`ClientError` failure at step 1 propagates. -/
theorem c9_only_client_error_caught_witness :
    (create_bucket CallOutcome.ok svcRaiseAt0 "sa-east-1").exn =
      some "EndpointConnectionError" ∧
    (create_bucket (CallOutcome.clientError "NoCredentialsError") svcRaiseAt0
      "sa-east-1").exn = some "NoCredentialsError" :=
  ⟨(c9_only_client_error_caught "sa-east-1" "EndpointConnectionError" svcRaiseAt0).1
      0 (by decide) (fun j hj => absurd hj (Nat.not_lt_zero j)) rfl,
   (c9_only_client_error_caught "sa-east-1" "NoCredentialsError" svcRaiseAt0).2.1⟩

/-- The bucket name targeted by a remote call. -/
def callBucket : RemoteCall → String
  | RemoteCall.createBucket b _ => b
  | RemoteCall.putPublicAccessBlock b _ => b
  | RemoteCall.putBucketWebsite b _ => b
  | RemoteCall.putBucketPolicy b _ => b

/-- A second all-accepting service, used to compare two runs. -/
def svcOkB : Nat → CallOutcome := fun _ => CallOutcome.ok

/-- C10: `create_bucket` is deterministic: two runs with the same region
and the same service responses (on the at most four calls that can be
issued) have identical remote-call sequences, output and outcome; and
every call of any run targets the single bucket `cloud-app-project-1`. -/
theorem c10_deterministic_single_bucket (region : String) (clientInit : CallOutcome)
    (svc svcB : Nat → CallOutcome) (h : ∀ i, i < 4 → svc i = svcB i) :
    create_bucket clientInit svc region = create_bucket clientInit svcB region ∧
    ∀ c ∈ (create_bucket clientInit svc region).calls, callBucket c = bucket_name := by
  have congrIssue : ∀ (l : List RemoteCall) (i : Nat),
      (∀ j, j < l.length → svc (i + j) = svcB (i + j)) →
      issueCalls svc l i = issueCalls svcB l i := by
    intro l
    induction l with
    | nil => intro i _; rfl
    | cons c rest ih =>
      intro i hagree
      have h0 : svc i = svcB i := by simpa using hagree 0 (by simp)
      have hrest : issueCalls svc rest (i + 1) = issueCalls svcB rest (i + 1) := by
        refine ih (i + 1) fun j hj => ?_
        have hx := hagree (j + 1) (by simpa using Nat.succ_lt_succ hj)
        have harith : i + (j + 1) = i + 1 + j := by omega
        rwa [harith] at hx
      simp only [issueCalls, h0, hrest]
  constructor
  · cases clientInit with
    | clientError m => rfl
    | otherError m => rfl
    | ok =>
      have hlen : (plannedCalls region).length = 4 := rfl
      have := congrIssue (plannedCalls region) 0
        (fun j hj => by simpa using h j (by omega))
      simp only [create_bucket, this]
  · intro c hc
    have hp := mem_calls_mem_planned clientInit svc region c hc
    obtain ⟨cfg, hcfg⟩ := createBucketCall_shape region
    simp [plannedCalls, hcfg] at hp
    rcases hp with h1 | h1 | h1 | h1 <;> subst h1 <;> rfl

/-- Witness for C10 comparing two all-accepting services on region
`"sa-east-1"`. -/
theorem c10_deterministic_single_bucket_witness :
    create_bucket CallOutcome.ok svcOk "sa-east-1" =
      create_bucket CallOutcome.ok svcOkB "sa-east-1" ∧
    callBucket (RemoteCall.putBucketWebsite bucket_name websiteConfiguration) =
      bucket_name :=
  ⟨(c10_deterministic_single_bucket "sa-east-1" CallOutcome.ok svcOk svcOkB
      (fun _ _ => rfl)).1,
   (c10_deterministic_single_bucket "sa-east-1" CallOutcome.ok svcOk svcOkB
      (fun _ _ => rfl)).2
      (RemoteCall.putBucketWebsite bucket_name websiteConfiguration) (by decide)⟩

end Bucket
